import Mathlib

/-!
Verification development for the smol-workflow generation core.

The definitions below are a shallow embedding of the TypeScript source:

* `src/utils/audio-fingerprint.ts` — fingerprint extraction
  (`extractFingerprintData`, modelling `extractFingerprint` as a pure
  function over the fetched bytes, with SHA-256 and metadata parsing as
  oracle parameters) and the song matcher (`matchSongsByFingerprint`,
  with network fingerprinting as an oracle `Extractor`).
* `src/utils/songs.ts` — `decideSongsStrategy`, `createPollSongsFunction`
  (`pollSongs`), `detectAndCorrectSwaps`, and the polling phase of
  `pollUntilComplete`, with durable-object state threaded explicitly.
* `src/workflow.ts` — the retry payload merge of `Workflow.run`.

Machine integers are modelled as `Nat`/`Int`; JS string truthiness for
`song.audio` is modelled as inequality with the empty string; JS records
(insertion-ordered string-keyed objects) are modelled as association lists
with insertion-order preserving update (`setKey`) and delete (`delKey`).
-/

/-- Fingerprint record of `audio-fingerprint.ts`.  `duration`, `bitrate`
and `sampleRate` are best-effort parsed metadata; durations are modelled
as integers (only `?? 0`, subtraction, absolute value and `<` are ever
applied to them in the source). -/
structure AudioFingerprint where
  hash : String
  byteLength : Nat
  audioUrl : String
  duration : Option Int
  bitrate : Option Int
  sampleRate : Option Int
deriving DecidableEq, Repr

/-- `AiSongGeneratorSong` of `types.d.ts`: `music_id`, `status`, `audio`.
An absent/empty audio URL is the empty string (JS falsy). -/
structure Song where
  music_id : String
  status : Int
  audio : String
deriving DecidableEq, Repr

/-- Song provider, `'aisonggenerator' | 'diffrhythm'` in the source. -/
inductive Provider
  | aisonggenerator
  | diffrhythm
deriving DecidableEq, Repr

/-- Outcome of one `extractFingerprint(url, maxAudioBytes, minBytes)`
call as observed by callers: the thrown `InsufficientAudioDataError`,
any other thrown error (network/timeout/fetch failure), a `null`
return, or a fingerprint. -/
inductive ExtractOutcome
  | insufficient (received required : Nat)
  | fetchErr
  | nullFp
  | ok (fp : AudioFingerprint)
deriving DecidableEq, Repr

/-- Oracle for `extractFingerprint` as used by the matcher and swap
detection: a deterministic function of the audio URL, the optional
`maxAudioBytes`, and `minBytes`. -/
def Extractor : Type := String → Option Nat → Nat → ExtractOutcome

/-- `FINGERPRINT_MIN_BYTES` of `audio-fingerprint.ts`. -/
def FINGERPRINT_MIN_BYTES : Nat := 32768

/-- ID3v2 header skip of `extractFingerprint`: if the first three bytes
are `0x49 0x44 0x33`, the offset is `10` plus the size decoded from
bytes 6–9, each masked to 7 bits.  Out-of-range reads yield `0`
(as JS `undefined & 0x7f` does). -/
def id3Offset (data : List Nat) : Nat :=
  if data.getD 0 0 == 0x49 && data.getD 1 0 == 0x44 && data.getD 2 0 == 0x33 then
    let size := ((data.getD 6 0 &&& 0x7f) <<< 21) ||| ((data.getD 7 0 &&& 0x7f) <<< 14) |||
      ((data.getD 8 0 &&& 0x7f) <<< 7) ||| (data.getD 9 0 &&& 0x7f)
    10 + size
  else 0

/-- The exact byte window `extractFingerprint` hashes:
`data.slice(offset, Math.min(offset + bytesToHash, data.length))` with
`bytesToHash = maxAudioBytes ?? 16384`. -/
def hashWindow (data : List Nat) (maxAudioBytes : Option Nat) : List Nat :=
  (data.drop (id3Offset data)).take (maxAudioBytes.getD 16384)

/-- One lowercase hexadecimal digit, as produced by `toString(16)`. -/
def hexDigit (n : Nat) : Char :=
  if n < 10 then Char.ofNat (48 + n) else Char.ofNat (87 + n)

/-- `b.toString(16).padStart(2, '0')` for one `Uint8Array` entry
(entries are always `< 256`). -/
def byteToHex (b : Nat) : String :=
  String.mk [hexDigit (b % 256 / 16), hexDigit (b % 16)]

/-- The hex rendering of `hashData`: digest bytes to lowercase hex,
joined. -/
def hexOfBytes (bs : List Nat) : String :=
  String.join (bs.map byteToHex)

/-- Metadata as parsed by `music-metadata` (`format.duration`,
`format.bitrate`, `format.sampleRate`), each possibly absent. -/
structure ParsedMeta where
  duration : Option Int
  bitrate : Option Int
  sampleRate : Option Int
deriving DecidableEq, Repr

/-- Result of `extractFingerprint` once the bytes have been fetched:
the `InsufficientAudioDataError` throw, the `null` return, or a
fingerprint. -/
inductive ExtractResult
  | insufficient (received required : Nat)
  | nullFp
  | ok (fp : AudioFingerprint)
deriving DecidableEq, Repr

/-- `extractFingerprint` of `audio-fingerprint.ts`, from the fetched
bytes onward (the fetch itself and its error paths happen before this
logic).  `sha256` is the digest oracle (`crypto.subtle.digest`) and
`parseMeta` the `music-metadata` oracle (`none` = parse threw, which is
swallowed). -/
def extractFingerprintData (sha256 : List Nat → List Nat)
    (parseMeta : List Nat → Option ParsedMeta)
    (audioUrl : String) (data : List Nat)
    (maxAudioBytes : Option Nat) (minBytes : Nat) : ExtractResult :=
  if data.length < minBytes then .insufficient data.length minBytes
  else if data.length == 0 then .nullFp
  else
    let meta := parseMeta data
    let audioData := hashWindow data maxAudioBytes
    .ok { hash := hexOfBytes (sha256 audioData)
          byteLength := audioData.length
          audioUrl := audioUrl
          duration := meta.bind ParsedMeta.duration
          bitrate := meta.bind ParsedMeta.bitrate
          sampleRate := meta.bind ParsedMeta.sampleRate }

/-- Concrete digest oracle for counterexamples: digest of a byte list
is the one-byte list holding its length modulo 256 (distinguishes the
window lengths the counterexamples care about). -/
def shaLen (bs : List Nat) : List Nat := [bs.length % 256]

/-- Concrete metadata oracle for counterexamples: parsing always
throws. -/
def parseNone (_ : List Nat) : Option ParsedMeta := none

/-- Ten bytes that are exactly an ID3v2 header (magic `ID3`, version
and flags, size 0) with no audio frames after it. -/
def id3OnlyData : List Nat := [0x49, 0x44, 0x33, 3, 0, 0, 0, 0, 0, 0]

/-- The fingerprint `extractFingerprint` produces for `id3OnlyData`
under the `shaLen`/`parseNone` oracles: a hash of the empty window. -/
def fpEmptyWindow : AudioFingerprint :=
  { hash := "00", byteLength := 0, audioUrl := "u",
    duration := none, bitrate := none, sampleRate := none }

/-- Claim C8 counterexample: on input consisting solely of a ten-byte
ID3 header (zero-length post-header audio data), `extractFingerprint`
called with `minBytes = 0` returns a fingerprint over the empty window
(`byteLength = 0`), not `null`: the `null` check in the source tests the
total fetched length before the header is skipped. -/
theorem c8_counterexample :
    (id3OnlyData.drop (id3Offset id3OnlyData)).length = 0 ∧
    extractFingerprintData shaLen parseNone "u" id3OnlyData none 0 =
      ExtractResult.ok fpEmptyWindow := by
  constructor
  · decide
  · decide

/-- Claim C8 (amended): `extractFingerprint` returns `null` exactly when
the entire fetched byte sequence is empty (which requires
`minBytes = 0`, otherwise the insufficient-data error fires first);
zero-length post-header data with a nonempty header yields a fingerprint
over zero bytes, not `null`. -/
theorem extractFingerprint_null_iff (sha256 : List Nat → List Nat)
    (parseMeta : List Nat → Option ParsedMeta) (audioUrl : String)
    (data : List Nat) (maxAudioBytes : Option Nat) (minBytes : Nat) :
    extractFingerprintData sha256 parseMeta audioUrl data maxAudioBytes minBytes =
      ExtractResult.nullFp ↔ data = [] ∧ minBytes = 0 := by
  unfold extractFingerprintData
  split
  next h1 =>
    constructor
    · intro h; cases h
    · rintro ⟨rfl, rfl⟩; simp at h1
  next h1 =>
    split
    next h2 =>
      have hdata : data = [] := List.length_eq_zero.mp (by simpa using h2)
      subst hdata
      simp only [List.length_nil, Nat.not_lt] at h1
      constructor
      · intro _; exact ⟨rfl, by omega⟩
      · intro _; rfl
    next h2 =>
      constructor
      · intro h; cases h
      · rintro ⟨rfl, rfl⟩; simp at h2

/-- The fingerprint `extractFingerprint` produces for `[1, 2, 3]` under
the `shaLen`/`parseNone` oracles and default `maxBytesToHash`. -/
def fpThreeBytes : AudioFingerprint :=
  { hash := "03", byteLength := 3, audioUrl := "u",
    duration := none, bitrate := none, sampleRate := none }

/-- Claim C9 counterexample: with three bytes of data and `minBytes = 0`,
`extractFingerprint` succeeds but hashes only the 3 available
post-header bytes, not the default `maxBytesToHash = 16384` bytes: the
source clamps the window with `Math.min(offset + bytesToHash,
data.length)`. -/
theorem c9_counterexample :
    extractFingerprintData shaLen parseNone "u" [1, 2, 3] none 0 =
      ExtractResult.ok fpThreeBytes ∧
    (hashWindow [1, 2, 3] none).length = 3 ∧ (3 : Nat) ≠ 16384 := by
  refine ⟨by decide, by decide, by decide⟩

/-- Claim C9 (amended): whenever `extractFingerprint` returns a
fingerprint, its hash is the SHA-256 digest, rendered as lowercase hex,
of the first `min(maxBytesToHash, available)` bytes of the data
following the skipped ID3-style header (`maxBytesToHash` defaulting to
16384), `byteLength` records exactly the number of bytes hashed, and
the window is exactly `maxBytesToHash` bytes whenever at least that
many post-header bytes were fetched. -/
theorem extractFingerprint_hash_spec (sha256 : List Nat → List Nat)
    (parseMeta : List Nat → Option ParsedMeta) (audioUrl : String)
    (data : List Nat) (maxAudioBytes : Option Nat) (minBytes : Nat)
    (fp : AudioFingerprint)
    (h : extractFingerprintData sha256 parseMeta audioUrl data maxAudioBytes minBytes =
      ExtractResult.ok fp) :
    fp.hash = hexOfBytes (sha256 (hashWindow data maxAudioBytes)) ∧
    fp.byteLength = (hashWindow data maxAudioBytes).length ∧
    (id3Offset data + maxAudioBytes.getD 16384 ≤ data.length →
      (hashWindow data maxAudioBytes).length = maxAudioBytes.getD 16384) := by
  unfold extractFingerprintData at h
  by_cases h1 : data.length < minBytes
  · simp only [if_pos h1] at h; cases h
  · simp only [if_neg h1] at h
    by_cases h2 : (data.length == 0) = true
    · simp only [if_pos h2] at h; cases h
    · simp only [if_neg h2] at h
      cases h
      refine ⟨rfl, rfl, ?_⟩
      intro hle
      unfold hashWindow
      simp only [List.length_take, List.length_drop]
      omega

/-- The fingerprint `extractFingerprint` produces for `[1, 2, 3]` with
`maxAudioBytes = 2` under the `shaLen`/`parseNone` oracles. -/
def fpTwoOfThree : AudioFingerprint :=
  { hash := "02", byteLength := 2, audioUrl := "u",
    duration := none, bitrate := none, sampleRate := none }

/-- Witness for `extractFingerprint_hash_spec`: a concrete successful
extraction at three bytes of data with `maxAudioBytes = 2`. -/
theorem extractFingerprint_hash_spec_witness :
    fpTwoOfThree.hash = hexOfBytes (shaLen (hashWindow [1, 2, 3] (some 2))) :=
  (extractFingerprint_hash_spec shaLen parseNone "u" [1, 2, 3] (some 2) 0
    fpTwoOfThree (by decide)).1

/-- Membership test on the `matched` set of candidate music ids
(`Set.has` in the source). -/
def strElem (x : String) : List String → Bool
  | [] => false
  | y :: ys => x == y || strElem x ys

/-- Lookup in a JS record modelled as an association list
(`record[key]`; `undefined` is `none`). -/
def getKey {α : Type} (m : List (String × α)) (k : String) : Option α :=
  (m.find? (fun p => p.1 == k)).map (fun p => p.2)

/-- The inner loop of the primary (hash) matching pass of
`matchSongsByFingerprint`: scan the complete songs in order and return
the first not-yet-matched song with audio whose re-fingerprint at the
streaming fingerprint's byte length (`minBytes = 0`) succeeds and
hash-matches; extraction failures and `null` fingerprints are skipped. -/
def findHashMatch (extract : Extractor) (sfp : AudioFingerprint)
    (matched : List String) : List Song → Option Song
  | [] => none
  | song :: rest =>
    if strElem song.music_id matched || song.audio == "" then
      findHashMatch extract sfp matched rest
    else
      match extract song.audio (some sfp.byteLength) 0 with
      | .ok cfp =>
        if cfp.hash == sfp.hash then some song
        else findHashMatch extract sfp matched rest
      | _ => findHashMatch extract sfp matched rest

/-- The primary matching pass of `matchSongsByFingerprint`: for each
original fingerprint in record-key order, accept the first hash match,
reassign the candidate's identity to the original's key, and set
`swapped` when the two ids differ.  Returns the partial result list,
the matched candidate ids, and the swap flag. -/
def primaryPass (extract : Extractor) (completeSongs : List Song) :
    List (String × AudioFingerprint) → List Song → List String → Bool →
    List Song × List String × Bool
  | [], result, matched, swapped => (result, matched, swapped)
  | (musicId, sfp) :: rest, result, matched, swapped =>
    match findHashMatch extract sfp matched completeSongs with
    | some song =>
      primaryPass extract completeSongs rest
        (result ++ [{ song with music_id := musicId }])
        (matched ++ [song.music_id])
        (swapped || song.music_id != musicId)
    | none => primaryPass extract completeSongs rest result matched swapped

/-- `streamingFingerprints[key].duration ?? 0` (the key is always
present when this is evaluated). -/
def durOf (fps : List (String × AudioFingerprint)) (key : String) : Int :=
  match getKey fps key with
  | some fp => fp.duration.getD 0
  | none => 0

/-- Default `Song` for (unreachable) out-of-range indexing. -/
def defaultSong : Song := { music_id := "", status := 0, audio := "" }

/-- `matchSongsByFingerprint` before its final length safety net: the
primary hash pass, then the two-candidate duration-proximity fallback
(`Promise.all` of two unconstrained fingerprints, a throw from either
leaving both `null`), then the keep-original-order fallback for any
other unmatched count. -/
def matchSongsResult (extract : Extractor)
    (streamingFingerprints : List (String × AudioFingerprint))
    (completeSongs : List Song) : List Song × Bool :=
  let p := primaryPass extract completeSongs streamingFingerprints [] [] false
  let result := p.1
  let matched := p.2.1
  let swapped := p.2.2
  let originalMusicIds := streamingFingerprints.map (fun e => e.1)
  let unmatchedIds := originalMusicIds.filter
    (fun key => !(result.any (fun r => r.music_id == key)))
  let unmatchedComplete := completeSongs.filter
    (fun s => !(strElem s.music_id matched))
  if unmatchedIds.length == 2 && unmatchedComplete.length == 2 then
    let id0 := unmatchedIds.getD 0 ""
    let id1 := unmatchedIds.getD 1 ""
    let u0 := unmatchedComplete.getD 0 defaultSong
    let u1 := unmatchedComplete.getD 1 defaultSong
    match extract u0.audio none FINGERPRINT_MIN_BYTES,
          extract u1.audio none FINGERPRINT_MIN_BYTES with
    | .ok fp1, .ok fp2 =>
      let s0 := durOf streamingFingerprints id0
      let s1 := durOf streamingFingerprints id1
      let c0 := fp1.duration.getD 0
      let c1 := fp2.duration.getD 0
      let originalDiff := (s0 - c0).natAbs + (s1 - c1).natAbs
      let swappedDiff := (s0 - c1).natAbs + (s1 - c0).natAbs
      if swappedDiff < originalDiff then
        (result ++ [{ u1 with music_id := id0 }, { u0 with music_id := id1 }], true)
      else
        (result ++ [{ u0 with music_id := id0 }, { u1 with music_id := id1 }], swapped)
    | _, _ =>
      (result ++ [{ u0 with music_id := id0 }, { u1 with music_id := id1 }], swapped)
  else if unmatchedIds.length != 0 then
    (result ++ unmatchedIds.filterMap
      (fun key => completeSongs.find? (fun s => s.music_id == key)), swapped)
  else
    (result, swapped)

/-- `matchSongsByFingerprint` of `audio-fingerprint.ts` over the
fingerprint oracle: the built result and the swap flag, except that a
built result whose length differs from the candidate count is replaced
by the unmodified input (safety net). -/
def matchSongsByFingerprint (extract : Extractor)
    (streamingFingerprints : List (String × AudioFingerprint))
    (completeSongs : List Song) : List Song × Bool :=
  let r := matchSongsResult extract streamingFingerprints completeSongs
  (if r.1.length == completeSongs.length then r.1 else completeSongs, r.2)

/-- Claim C2: the songs array returned by `matchSongsByFingerprint`
always has the length of the input candidate list, and whenever the
internally built result has a different length the unmodified input
candidate array is returned instead. -/
theorem matchSongs_length_safety (extract : Extractor)
    (fps : List (String × AudioFingerprint)) (cs : List Song) :
    (matchSongsByFingerprint extract fps cs).1.length = cs.length ∧
    ((matchSongsResult extract fps cs).1.length ≠ cs.length →
      (matchSongsByFingerprint extract fps cs).1 = cs) := by
  unfold matchSongsByFingerprint
  by_cases h : (matchSongsResult extract fps cs).1.length = cs.length
  · simp [h]
  · simp [h]

/-- Structure eta for `{...song, music_id: song.music_id}`: reassigning
a song's own id is the identity. -/
theorem song_set_own_id (s : Song) (a : String) (h : s.music_id = a) :
    { s with music_id := a } = s := by
  cases s
  cases h
  rfl

/-- Streaming fingerprint used by the C1/C2 concrete inputs: hash `h1`
over 4 bytes. -/
def fpA1 : AudioFingerprint :=
  { hash := "h1", byteLength := 4, audioUrl := "ua",
    duration := none, bitrate := none, sampleRate := none }

/-- Fingerprint the concrete oracle returns for candidate `songB`. -/
def fpB1 : AudioFingerprint :=
  { hash := "h1", byteLength := 4, audioUrl := "ub",
    duration := none, bitrate := none, sampleRate := none }

/-- Candidate with id `B` whose content hash-matches `fpA1`. -/
def songB : Song := { music_id := "B", status := 4, audio := "ub" }

/-- Second candidate, never hash-matched by the concrete oracle. -/
def songC : Song := { music_id := "C", status := 4, audio := "uc" }

/-- Concrete extraction oracle: only the call the matcher makes for
`songB` at `fpA1`'s byte length succeeds; everything else throws. -/
def exhash1 : Extractor := fun url maxB _ =>
  if url == "ub" && maxB == some 4 then .ok fpB1 else .fetchErr

/-- Claim C1 counterexample: with one original fingerprint and two
candidates whose first hash-matches it under a different id, the
primary pass marks `swapped = true` but builds a one-element result, so
the length safety net returns the candidate array unchanged:
`matchSongsByFingerprint` reports `swapped = true` while the returned
songs array is identical to the input, refuting the claimed
equivalence between `swapped` and a changed identity assignment. -/
theorem c1_counterexample :
    matchSongsByFingerprint exhash1 [("A", fpA1)] [songB, songC] =
      ([songB, songC], true) := by
  decide

/-- Claim C1 (amended): the two concrete scenarios hold — for two
candidates whose content hash-matches the two originals in their own
order, `matchSongsByFingerprint` returns `swapped = false` and the
identical-order candidate array; for two candidates whose content
matches the originals in reversed order it returns `swapped = true`
with `output[i]` carrying the `i`-th original's key — but `swapped`
is not equivalent to a changed identity assignment in general, since
the length safety net can return the unmodified input together with
`swapped = true`. -/
theorem matchSongs_two_candidate_scenarios (extract : Extractor)
    (A B : String) (fpA fpB : AudioFingerprint)
    (c1 c2 d1 d2 : Song) (g1 g2 k1 k2 k3 : AudioFingerprint)
    (hAB : (A == B) = false) (hBA : (B == A) = false)
    (hc1id : c1.music_id = A) (hc2id : c2.music_id = B)
    (hc1aud : (c1.audio == "") = false) (hc2aud : (c2.audio == "") = false)
    (hx1 : extract c1.audio (some fpA.byteLength) 0 = .ok g1)
    (hg1 : (g1.hash == fpA.hash) = true)
    (hx2 : extract c2.audio (some fpB.byteLength) 0 = .ok g2)
    (hg2 : (g2.hash == fpB.hash) = true)
    (hd1id : d1.music_id = A) (hd2id : d2.music_id = B)
    (hd1aud : (d1.audio == "") = false) (hd2aud : (d2.audio == "") = false)
    (hy1 : extract d1.audio (some fpA.byteLength) 0 = .ok k1)
    (hk1 : (k1.hash == fpA.hash) = false)
    (hy2 : extract d2.audio (some fpA.byteLength) 0 = .ok k2)
    (hk2 : (k2.hash == fpA.hash) = true)
    (hy3 : extract d1.audio (some fpB.byteLength) 0 = .ok k3)
    (hk3 : (k3.hash == fpB.hash) = true) :
    matchSongsByFingerprint extract [(A, fpA), (B, fpB)] [c1, c2] =
      ([c1, c2], false) ∧
    matchSongsByFingerprint extract [(A, fpA), (B, fpB)] [d1, d2] =
      ([{ d2 with music_id := A }, { d1 with music_id := B }], true) := by
  constructor
  · have e1 : { c1 with music_id := A } = c1 := song_set_own_id c1 A hc1id
    have e2 : { c2 with music_id := B } = c2 := song_set_own_id c2 B hc2id
    simp [matchSongsByFingerprint, matchSongsResult, primaryPass, findHashMatch,
      strElem, hc1id, hc2id, hc1aud, hc2aud, hx1, hg1, hx2, hg2, hAB, hBA, e1, e2]
  · simp [matchSongsByFingerprint, matchSongsResult, primaryPass, findHashMatch,
      strElem, hd1id, hd2id, hd1aud, hd2aud, hy1, hk1, hy2, hk2, hy3, hk3, hAB, hBA]
    exact Or.inl (by intro h; subst h; simp at hBA)

/-- Original fingerprint `A` for the two-candidate witness. -/
def fpA2 : AudioFingerprint :=
  { hash := "hA", byteLength := 4, audioUrl := "ua",
    duration := none, bitrate := none, sampleRate := none }

/-- Original fingerprint `B` for the two-candidate witness. -/
def fpB2 : AudioFingerprint :=
  { hash := "hB", byteLength := 8, audioUrl := "ub",
    duration := none, bitrate := none, sampleRate := none }

/-- Re-fingerprint with hash `hA` returned by the witness oracle. -/
def mfpA : AudioFingerprint :=
  { hash := "hA", byteLength := 4, audioUrl := "w",
    duration := none, bitrate := none, sampleRate := none }

/-- Re-fingerprint with hash `hB` returned by the witness oracle. -/
def mfpB : AudioFingerprint :=
  { hash := "hB", byteLength := 8, audioUrl := "w",
    duration := none, bitrate := none, sampleRate := none }

/-- Re-fingerprint with a non-matching hash returned by the witness
oracle. -/
def mfpZ : AudioFingerprint :=
  { hash := "zz", byteLength := 4, audioUrl := "w",
    duration := none, bitrate := none, sampleRate := none }

/-- In-order candidate carrying original `A`'s content. -/
def c1w : Song := { music_id := "A", status := 4, audio := "uc1" }

/-- In-order candidate carrying original `B`'s content. -/
def c2w : Song := { music_id := "B", status := 4, audio := "uc2" }

/-- Reversed candidate: id `A` but original `B`'s content. -/
def d1w : Song := { music_id := "A", status := 4, audio := "ud1" }

/-- Reversed candidate: id `B` but original `A`'s content. -/
def d2w : Song := { music_id := "B", status := 4, audio := "ud2" }

/-- Concrete extraction oracle for the two-candidate witness. -/
def exhash2 : Extractor := fun url maxB _ =>
  if url == "uc1" && maxB == some 4 then .ok mfpA
  else if url == "uc2" && maxB == some 8 then .ok mfpB
  else if url == "ud1" && maxB == some 4 then .ok mfpZ
  else if url == "ud2" && maxB == some 4 then .ok mfpA
  else if url == "ud1" && maxB == some 8 then .ok mfpB
  else .fetchErr

/-- Witness for `matchSongs_two_candidate_scenarios` at concrete
originals, candidates and oracle. -/
theorem matchSongs_two_candidate_scenarios_witness :
    matchSongsByFingerprint exhash2 [("A", fpA2), ("B", fpB2)] [c1w, c2w] =
      ([c1w, c2w], false) ∧
    matchSongsByFingerprint exhash2 [("A", fpA2), ("B", fpB2)] [d1w, d2w] =
      ([{ d2w with music_id := "A" }, { d1w with music_id := "B" }], true) :=
  matchSongs_two_candidate_scenarios exhash2 "A" "B" fpA2 fpB2 c1w c2w d1w d2w
    mfpA mfpB mfpZ mfpA mfpB
    (by decide) (by decide) (by decide) (by decide) (by decide) (by decide)
    (by decide) (by decide) (by decide) (by decide) (by decide) (by decide)
    (by decide) (by decide) (by decide) (by decide) (by decide) (by decide)
    (by decide) (by decide)

/-- Witness for `matchSongs_length_safety` discharging its inner
hypothesis at the C1 concrete input, where the built result is shorter
than the candidate list. -/
theorem matchSongs_length_safety_witness :
    (matchSongsByFingerprint exhash1 [("A", fpA1)] [songB, songC]).1 =
      [songB, songC] :=
  (matchSongs_length_safety exhash1 [("A", fpA1)] [songB, songC]).2 (by decide)

/-- `WorkflowParams`: the workflow event payload.  Optional JS fields
are `Option`; `publicFlag`/`instrumentalFlag` model the `public` and
`instrumental` fields. -/
structure WorkflowParams where
  address : Option String
  prompt : Option String
  retry_id : Option String
  publicFlag : Option Bool
  instrumentalFlag : Option Bool
  playlist : Option String
deriving DecidableEq, Repr

/-- One field of the spread `{ ...payload, ...retry_steps?.payload }` of
`Workflow.run`: a field present on the prior run's payload overrides the
new payload's value; otherwise the new payload's value is kept. -/
def mergeField {α : Type} (newV priorV : Option α) : Option α :=
  match priorV with
  | some v => some v
  | none => newV

/-- The retry payload merge `payload = { ...payload,
...retry_steps?.payload }` of `Workflow.run` (both the durable-object
branch and the KV fallback branch perform the same merge). -/
def mergePayload (newP priorP : WorkflowParams) : WorkflowParams :=
  { address := mergeField newP.address priorP.address
    prompt := mergeField newP.prompt priorP.prompt
    retry_id := mergeField newP.retry_id priorP.retry_id
    publicFlag := mergeField newP.publicFlag priorP.publicFlag
    instrumentalFlag := mergeField newP.instrumentalFlag priorP.instrumentalFlag
    playlist := mergeField newP.playlist priorP.playlist }

/-- The effective payload of a retried run: spreading `undefined`
(`retry_steps?.payload` absent) leaves the new payload unchanged. -/
def effectivePayload (newP : WorkflowParams) (priorPayload : Option WorkflowParams) :
    WorkflowParams :=
  match priorPayload with
  | some p => mergePayload newP p
  | none => newP

/-- New payload of the C3 counterexample: resupplies `address`. -/
def newPC3 : WorkflowParams :=
  { address := some "new", prompt := some "p", retry_id := some "r",
    publicFlag := none, instrumentalFlag := none, playlist := none }

/-- Prior payload of the C3 counterexample: has the original address. -/
def priorPC3 : WorkflowParams :=
  { address := some "old", prompt := some "p0", retry_id := none,
    publicFlag := some true, instrumentalFlag := none, playlist := none }

/-- Claim C3 counterexample: a retry that resupplies `address = "new"`
over a prior payload with `address = "old"` yields `"old"`, not
`"new"`: the spread `{ ...payload, ...retry_steps?.payload }` lets the
prior run's fields override the newly supplied ones, the opposite of
the claimed merge direction. -/
theorem c3_counterexample :
    newPC3.address = some "new" ∧ priorPC3.address = some "old" ∧
    (mergePayload newPC3 priorPC3).address = some "old" ∧
    (mergePayload newPC3 priorPC3).address ≠ newPC3.address := by
  refine ⟨rfl, rfl, rfl, by decide⟩

/-- Claim C3 (amended): on a retry whose prior state loads successfully,
the effective payload is the merge in which fields present in the prior
run's payload override the new payload — the original `address`
survives even a retry that does resupply it — and only fields absent
from the prior payload are taken from the new payload. -/
theorem mergePayload_prior_wins (newP priorP : WorkflowParams) :
    (mergePayload newP priorP).address =
      (match priorP.address with | some v => some v | none => newP.address) ∧
    (mergePayload newP priorP).prompt =
      (match priorP.prompt with | some v => some v | none => newP.prompt) ∧
    (mergePayload newP priorP).retry_id =
      (match priorP.retry_id with | some v => some v | none => newP.retry_id) ∧
    (mergePayload newP priorP).publicFlag =
      (match priorP.publicFlag with | some v => some v | none => newP.publicFlag) ∧
    (mergePayload newP priorP).instrumentalFlag =
      (match priorP.instrumentalFlag with
        | some v => some v | none => newP.instrumentalFlag) ∧
    (mergePayload newP priorP).playlist =
      (match priorP.playlist with | some v => some v | none => newP.playlist) ∧
    effectivePayload newP none = newP := by
  refine ⟨?_, ?_, ?_, ?_, ?_, ?_, rfl⟩
  · cases h : priorP.address <;> simp [mergePayload, mergeField, h]
  · cases h : priorP.prompt <;> simp [mergePayload, mergeField, h]
  · cases h : priorP.retry_id <;> simp [mergePayload, mergeField, h]
  · cases h : priorP.publicFlag <;> simp [mergePayload, mergeField, h]
  · cases h : priorP.instrumentalFlag <;> simp [mergePayload, mergeField, h]
  · cases h : priorP.playlist <;> simp [mergePayload, mergeField, h]

/-- Insertion-order-preserving JS record update `m[k] = v`. -/
def setKey {α : Type} (m : List (String × α)) (k : String) (v : α) :
    List (String × α) :=
  if m.any (fun p => p.1 == k) then
    m.map (fun p => if p.1 == k then (k, v) else p)
  else m ++ [(k, v)]

/-- JS record delete `delete m[k]`. -/
def delKey {α : Type} (m : List (String × α)) (k : String) :
    List (String × α) :=
  m.filter (fun p => !(p.1 == k))

/-- `MAX_FINGERPRINT_ATTEMPTS` of `songs.ts`. -/
def MAX_FINGERPRINT_ATTEMPTS : Nat := 5

/-- The durable-object step store of one run, restricted to the keys the
polling coordinator reads and writes (`getSteps` returns the maps with
`|| {}` defaults, modelled by empty lists). -/
structure DOState where
  songs : Option (List Song)
  original_fingerprints : List (String × AudioFingerprint)
  last_known_urls : List (String × String)
  fingerprint_attempts : List (String × Nat)
deriving DecidableEq, Repr

/-- Errors thrown by the poll function, modelled structurally:
`negativeStatus` is the `NonRetryableError`; the rest are ordinary
(retryable) errors, including the two propagated fingerprinting
failures of `detectAndCorrectSwaps`. -/
inductive PollError
  | negativeStatus (musicId : String) (status : Int)
  | missingAudio
  | waitingForAudio
  | stillStreaming
  | insufficientData (received required : Nat)
  | fetchFailure
deriving DecidableEq, Repr

/-- Whether a thrown error is the `NonRetryableError` (aborts the whole
workflow run instead of triggering step retry). -/
def PollError.isNonRetryable : PollError → Bool
  | .negativeStatus _ _ => true
  | _ => false

/-- Poll mode of the function returned by `createPollSongsFunction`. -/
inductive PollMode
  | streaming
  | complete
deriving DecidableEq, Repr

/-- In-memory working copy of the three swap-detection maps inside
`detectAndCorrectSwaps`, plus its two change flags. -/
structure DetectMem where
  origFps : List (String × AudioFingerprint)
  lastUrls : List (String × String)
  attempts : List (String × Nat)
  stateChanged : Bool
  urlsChanged : Bool
deriving DecidableEq, Repr

/-- The per-song loop of `detectAndCorrectSwaps`: for each song with
audio at a new/changed URL, attempt a fingerprint.  On success the
first-seen fingerprint is frozen as the song's original and the attempt
counter cleared; on `InsufficientAudioDataError` the attempt counter is
incremented and persisted immediately, then the error propagates; any
other extraction error propagates with nothing persisted. -/
def processSongs (extract : Extractor) (persisted : DOState) :
    List Song → DetectMem → Except (PollError × DOState) DetectMem
  | [], mem => .ok mem
  | song :: rest, mem =>
    if song.audio == "" then processSongs extract persisted rest mem
    else
      let isNewUrl :=
        match getKey mem.lastUrls song.music_id with
        | none => true
        | some u => u == "" || u != song.audio
      if isNewUrl then
        let mem1 := { mem with urlsChanged := true }
        let attempts0 := (getKey mem1.attempts song.music_id).getD 0
        let isLastAttempt := MAX_FINGERPRINT_ATTEMPTS - 1 ≤ attempts0
        match extract song.audio none (if isLastAttempt then 0 else FINGERPRINT_MIN_BYTES) with
        | .ok fp =>
          let mem2 :=
            if (getKey mem1.origFps song.music_id).isNone then
              { mem1 with origFps := setKey mem1.origFps song.music_id fp,
                          stateChanged := true }
            else mem1
          let mem3 :=
            if (getKey mem2.attempts song.music_id).getD 0 != 0 then
              { mem2 with attempts := delKey mem2.attempts song.music_id,
                          stateChanged := true }
            else mem2
          processSongs extract persisted rest
            { mem3 with lastUrls := setKey mem3.lastUrls song.music_id song.audio,
                        stateChanged := true }
        | .nullFp =>
          processSongs extract persisted rest
            { mem1 with lastUrls := setKey mem1.lastUrls song.music_id song.audio,
                        stateChanged := true }
        | .insufficient received required =>
          let attempts1 := setKey mem1.attempts song.music_id (attempts0 + 1)
          .error (PollError.insufficientData received required,
            { persisted with fingerprint_attempts := attempts1 })
        | .fetchErr => .error (PollError.fetchFailure, persisted)
      else processSongs extract persisted rest mem

/-- `detectAndCorrectSwaps` of `songs.ts`: load the persisted maps, run
the per-song loop, then — if any URL changed and exactly two original
fingerprints exist — run the Song Matcher, adopting the corrected order
and rebuilding `last_known_urls` on a reported swap; finally persist the
three maps if anything changed. -/
def detectAndCorrectSwaps (extract : Extractor) (persisted : DOState)
    (songs : List Song) : Except (PollError × DOState) (List Song × DOState) :=
  let mem0 : DetectMem :=
    { origFps := persisted.original_fingerprints
      lastUrls := persisted.last_known_urls
      attempts := persisted.fingerprint_attempts
      stateChanged := false
      urlsChanged := false }
  match processSongs extract persisted songs mem0 with
  | .error e => .error e
  | .ok mem =>
    let swapRes :=
      if mem.urlsChanged && mem.origFps.length == 2 then
        let m := matchSongsByFingerprint extract mem.origFps songs
        if m.2 then
          let newUrls := m.1.foldl
            (fun acc s => if s.audio != "" then setKey acc s.music_id s.audio else acc) []
          (m.1, { mem with lastUrls := newUrls, stateChanged := true })
        else (songs, mem)
      else (songs, mem)
    let persisted1 :=
      if swapRes.2.stateChanged then
        { persisted with
            original_fingerprints := swapRes.2.origFps
            last_known_urls := swapRes.2.lastUrls
            fingerprint_attempts := swapRes.2.attempts }
      else persisted
    .ok (swapRes.1, persisted1)

/-- The first song of a poll result with a negative status, if any (the
source loop throws at the first one it meets). -/
def firstNegative : List Song → Option Song
  | [] => none
  | s :: rest => if s.status < 0 then some s else firstNegative rest

/-- The poll function returned by `createPollSongsFunction` of
`songs.ts`, as a function of the fetched `getSongs` result: on a
negative status, save the fetched songs and throw the non-retryable
error; with no audio at all, throw; otherwise run swap detection (for
`aisonggenerator` only), save the snapshot, and finally evaluate the
mode's pass/fail condition.  Returns the thrown/returned outcome
together with the durable state after the call. -/
def pollSongs (extract : Extractor) (source : Provider) (mode : PollMode)
    (st : DOState) (fetched : List Song) :
    Except PollError (List Song) × DOState :=
  match firstNegative fetched with
  | some s =>
    (.error (.negativeStatus s.music_id s.status), { st with songs := some fetched })
  | none =>
    let has_audio := fetched.any (fun s => s.audio != "")
    let all_have_audio := fetched.all (fun s => s.audio != "")
    let is_complete := fetched.all (fun s => decide (4 ≤ s.status))
    if !has_audio then (.error .missingAudio, st)
    else
      match (if source == Provider.aisonggenerator
             then detectAndCorrectSwaps extract st fetched
             else .ok (fetched, st)) with
      | .error (e, st1) => (.error e, st1)
      | .ok (songs1, st1) =>
        let st2 := { st1 with songs := some songs1 }
        match mode with
        | .streaming =>
          if !all_have_audio then (.error .waitingForAudio, st2) else (.ok songs1, st2)
        | .complete =>
          if !is_complete then (.error .stillStreaming, st2) else (.ok songs1, st2)

/-- `step.do` with a bounded retry budget around the poll function
(Cloudflare Workflows contract: an ordinary error is retried while
retries remain; a `NonRetryableError` stops immediately).  `fetches i`
is the `getSongs` result observed by attempt `i`; `fuel` is the number
of retries still allowed. -/
def runPollStep (extract : Extractor) (source : Provider) (mode : PollMode)
    (fetches : Nat → List Song) :
    Nat → Nat → DOState → Except PollError (List Song) × DOState
  | 0, i, st => pollSongs extract source mode st (fetches i)
  | fuel + 1, i, st =>
    match pollSongs extract source mode st (fetches i) with
    | (.ok songs, st1) => (.ok songs, st1)
    | (.error e, st1) =>
      if e.isNonRetryable then (.error e, st1)
      else runPollStep extract source mode fetches fuel (i + 1) st1

deriving instance DecidableEq for Except

/-- Outcome of the polling phase of the workflow run: the final poll
outcome, the durable state, and whether the run reached its completion
write (the `complete workflow` step writing the relational row and the
KV artifact blob). -/
structure PhaseOutcome where
  result : Except PollError (List Song)
  store : DOState
  completionWritten : Bool
deriving DecidableEq, Repr

/-- `pollUntilComplete` of `songs.ts` followed by the completion write
of `Workflow.run`: streaming poll (5 retries), fast-path exit when all
songs are already complete, completion poll (6 retries); a thrown error
propagates out of `Workflow.run`, so no completion write happens. -/
def runSongPhase (extract : Extractor) (source : Provider)
    (fetchesS fetchesC : Nat → List Song) (st : DOState) : PhaseOutcome :=
  match runPollStep extract source .streaming fetchesS 5 0 st with
  | (.error e, st1) => { result := .error e, store := st1, completionWritten := false }
  | (.ok streamingSongs, st1) =>
    if streamingSongs.all (fun s => decide (4 ≤ s.status)) then
      { result := .ok streamingSongs, store := st1, completionWritten := true }
    else
      match runPollStep extract source .complete fetchesC 6 0 st1 with
      | (.error e, st2) => { result := .error e, store := st2, completionWritten := false }
      | (.ok completeSongs, st2) =>
        { result := .ok completeSongs, store := st2, completionWritten := true }

/-- The value of a non-throwing poll outcome (`none` for a throw). -/
def okValue {ε α : Type} : Except ε α → Option α
  | .ok a => some a
  | .error _ => none

/-- Extraction oracle that always throws (its calls are unreachable in
the proofs that use it). -/
def exNever : Extractor := fun _ _ _ => .fetchErr

/-- Empty durable state: nothing persisted yet. -/
def stEmpty : DOState :=
  { songs := none, original_fingerprints := [], last_known_urls := [],
    fingerprint_attempts := [] }

/-- A `getSongs` result in which no song has audio yet. -/
def noAudioSongs : List Song :=
  [{ music_id := "m1", status := 0, audio := "" },
   { music_id := "m2", status := 1, audio := "" }]

/-- Claim C4 counterexample: a poll whose fetched songs have no audio at
all throws `Songs missing audio` without persisting any snapshot — the
durable state still has `songs = none` after the failing poll, refuting
"every invocation persists a snapshot before the pass/fail decision". -/
theorem c4_counterexample :
    pollSongs exNever Provider.aisonggenerator PollMode.streaming stEmpty noAudioSongs =
      (.error PollError.missingAudio, stEmpty) ∧
    stEmpty.songs = none := by
  refine ⟨by decide, rfl⟩

/-- Claim C4 (amended): a poll with at least one audio URL and no
negative status whose swap detection (run only for `aisonggenerator`)
returns without throwing persists the snapshot of the (possibly
reordered) songs before the mode's pass/fail decision is evaluated, so
such a poll leaves the songs durably saved whether it passes or fails;
a poll observing a negative status saves the fetched songs before
throwing the non-retryable error; but a poll with no audio at all, or
one whose swap-detection fingerprinting throws, fails without saving a
songs snapshot. -/
theorem pollSongs_snapshot_before_decision (extract : Extractor)
    (mode : PollMode) (st st1 : DOState) (fetched songs1 : List Song)
    (src : Provider) (sN : Song) :
    (firstNegative fetched = none →
     fetched.any (fun s => s.audio != "") = true →
     detectAndCorrectSwaps extract st fetched = .ok (songs1, st1) →
     (pollSongs extract Provider.aisonggenerator mode st fetched).2.songs = some songs1) ∧
    (firstNegative fetched = none →
     fetched.any (fun s => s.audio != "") = true →
     (pollSongs extract Provider.diffrhythm mode st fetched).2.songs = some fetched) ∧
    (firstNegative fetched = some sN →
     (pollSongs extract src mode st fetched).2.songs = some fetched) := by
  refine ⟨?_, ?_, ?_⟩
  · intro hneg haud hdet
    simp only [pollSongs, hneg, haud, hdet]
    cases mode <;> simp <;> split <;> rfl
  · intro hneg haud
    simp only [pollSongs, hneg, haud]
    cases mode <;> simp <;> split <;> rfl
  · intro hneg
    simp only [pollSongs, hneg]

/-- Extraction oracle that always succeeds with `mfpA`. -/
def exDet : Extractor := fun _ _ _ => .ok mfpA

/-- A fetched song list with one streaming song. -/
def fetchedW4 : List Song := [{ music_id := "m1", status := 1, audio := "u1" }]

/-- The durable state after swap detection first sees `fetchedW4`. -/
def stW4 : DOState :=
  { songs := none, original_fingerprints := [("m1", mfpA)],
    last_known_urls := [("m1", "u1")], fingerprint_attempts := [] }

/-- Witness for `pollSongs_snapshot_before_decision`: a concrete failing
streaming poll (only one of the songs has audio is irrelevant here —
the single song streams, the mode check passes) whose snapshot is
persisted. -/
theorem pollSongs_snapshot_before_decision_witness :
    (pollSongs exDet Provider.aisonggenerator PollMode.streaming stEmpty fetchedW4).2.songs =
      some fetchedW4 :=
  (pollSongs_snapshot_before_decision exDet PollMode.streaming stEmpty stW4
    fetchedW4 fetchedW4 Provider.aisonggenerator defaultSong).1
    (by decide) (by decide) (by decide)

/-- Claim C7: a poll observing any song with negative status saves the
fetched songs and throws the `NonRetryableError`; the retrying step
stops immediately on that error even with retries remaining; and a run
whose streaming poll observes a negative status ends with that error
and never reaches the completion write (relational row and artifact
blob). -/
theorem pollSongs_negative_nonretryable_abort (extract : Extractor)
    (source : Provider) (mode : PollMode) (st : DOState)
    (fetched : List Song) (sN : Song) (fetchesS fetchesC : Nat → List Song)
    (fuel i : Nat) :
    (firstNegative fetched = some sN →
      pollSongs extract source mode st fetched =
        (.error (.negativeStatus sN.music_id sN.status),
         { st with songs := some fetched }) ∧
      (PollError.negativeStatus sN.music_id sN.status).isNonRetryable = true) ∧
    (firstNegative (fetchesS i) = some sN →
      runPollStep extract source mode fetchesS (fuel + 1) i st =
        (.error (.negativeStatus sN.music_id sN.status),
         { st with songs := some (fetchesS i) })) ∧
    (firstNegative (fetchesS 0) = some sN →
      runSongPhase extract source fetchesS fetchesC st =
        { result := .error (.negativeStatus sN.music_id sN.status),
          store := { st with songs := some (fetchesS 0) },
          completionWritten := false }) := by
  have key : ∀ (mode' : PollMode) (st' : DOState) (fetched' : List Song),
      firstNegative fetched' = some sN →
      pollSongs extract source mode' st' fetched' =
        (.error (.negativeStatus sN.music_id sN.status),
         { st' with songs := some fetched' }) := by
    intro mode' st' fetched' h
    simp only [pollSongs, h]
  have step : ∀ (mode' : PollMode) (fuel' i' : Nat) (st' : DOState),
      firstNegative (fetchesS i') = some sN →
      runPollStep extract source mode' fetchesS (fuel' + 1) i' st' =
        (.error (.negativeStatus sN.music_id sN.status),
         { st' with songs := some (fetchesS i') }) := by
    intro mode' fuel' i' st' h
    simp only [runPollStep]
    rw [key mode' st' (fetchesS i') h]
    simp [PollError.isNonRetryable]
  refine ⟨?_, ?_, ?_⟩
  · intro h
    exact ⟨key mode st fetched h, rfl⟩
  · intro h
    exact step mode fuel i st h
  · intro h
    have h5 : (5 : Nat) = 4 + 1 := rfl
    simp only [runSongPhase, h5]
    rw [step PollMode.streaming 4 0 st h]

/-- A song the provider declared failed. -/
def negSong : Song := { music_id := "bad", status := -1, audio := "" }

/-- Fetch sequence that always reports the failed song. -/
def fetchesNeg : Nat → List Song := fun _ => [negSong]

/-- Durable state after the failing poll saved its snapshot. -/
def stNeg : DOState :=
  { songs := some [negSong], original_fingerprints := [], last_known_urls := [],
    fingerprint_attempts := [] }

/-- Witness for `pollSongs_negative_nonretryable_abort`: a concrete run
whose first poll sees `status = -1` aborts with the non-retryable error
and no completion write. -/
theorem pollSongs_negative_nonretryable_abort_witness :
    runSongPhase exNever Provider.aisonggenerator fetchesNeg fetchesNeg stEmpty =
      { result := .error (.negativeStatus "bad" (-1)), store := stNeg,
        completionWritten := false } :=
  (pollSongs_negative_nonretryable_abort exNever Provider.aisonggenerator
    PollMode.streaming stEmpty [negSong] negSong fetchesNeg fetchesNeg 0 0).2.2
    (by decide)

/-- Claim C10: for a poll of songs from the `diffrhythm` provider, swap
detection never runs: the fingerprint maps of the durable state are
untouched, the only possible songs write is the fetched list exactly as
the status check delivered it, and any successfully returned list is
that fetched list, never reordered. -/
theorem pollSongs_diffrhythm_no_swap_detection (extract : Extractor)
    (mode : PollMode) (st : DOState) (fetched : List Song) :
    (pollSongs extract Provider.diffrhythm mode st fetched).2.original_fingerprints =
      st.original_fingerprints ∧
    (pollSongs extract Provider.diffrhythm mode st fetched).2.last_known_urls =
      st.last_known_urls ∧
    (pollSongs extract Provider.diffrhythm mode st fetched).2.fingerprint_attempts =
      st.fingerprint_attempts ∧
    ((pollSongs extract Provider.diffrhythm mode st fetched).2.songs = st.songs ∨
     (pollSongs extract Provider.diffrhythm mode st fetched).2.songs = some fetched) ∧
    (okValue (pollSongs extract Provider.diffrhythm mode st fetched).1).getD fetched =
      fetched := by
  cases hneg : firstNegative fetched with
  | some s =>
    simp [pollSongs, hneg, okValue]
  | none =>
    by_cases ha : fetched.any (fun s => s.audio != "") = true
    · cases mode <;>
        simp only [pollSongs, hneg, ha] <;>
        (repeat' split) <;>
        simp_all [okValue]
    · cases mode <;>
        simp only [pollSongs, hneg] <;>
        simp [ha, okValue]

/-- Opaque song id; the source allows `number[] | string[]`, and the
core never inspects individual ids. -/
abbrev SongId : Type := String

/-- The prior run's step store as read by `decideSongsStrategy`
(`retry_steps`), restricted to the fields it consults. -/
structure WorkflowSteps where
  payload : Option WorkflowParams
  songs : Option (List Song)
  song_ids : Option (List SongId)
  original_fingerprints : Option (List (String × AudioFingerprint))
deriving Repr

/-- `SongsDecisionResult` of `songs.ts` (`songs = none` iff polling is
needed). -/
structure SongsDecision where
  needsPolling : Bool
  songs : Option (List Song)
  song_ids : List SongId
  source : Provider
deriving Repr

/-- Observable collaborator calls and durable writes made while
deciding the songs strategy: the quick-check `getSongs` status call
(recording the retry limit of its step config), a `generateSongs` call,
and a `stub.saveStep` write. -/
inductive DecideCall
  | statusCheck (retryLimit : Nat)
  | generate (p : Provider)
  | save (key : String)
deriving DecidableEq, Repr

/-- The song-order validation shared by paths 1 and 2 of
`decideSongsStrategy`: when the prior run carried exactly two frozen
original fingerprints, run the Song Matcher and adopt its order if it
reports a swap. -/
def validateOrder (extract : Extractor) (rs : WorkflowSteps)
    (songs : List Song) : List Song :=
  match rs.original_fingerprints with
  | some fps =>
    if fps.length == 2 then
      let m := matchSongsByFingerprint extract fps songs
      if m.2 then m.1 else songs
    else songs
  | none => songs

/-- `generateNewSongs` of `songs.ts`: try `aisonggenerator`, fall back
to `diffrhythm` on any failure; a failure of both propagates.  The
oracle `gen` gives each provider's `generateSongs` outcome. -/
def generateNewSongs (gen : Provider → Except Unit (List SongId)) :
    Except Unit (List SongId × Provider × List DecideCall) :=
  match gen Provider.aisonggenerator with
  | .ok ids => .ok (ids, Provider.aisonggenerator, [.generate Provider.aisonggenerator])
  | .error _ =>
    match gen Provider.diffrhythm with
    | .ok ids =>
      .ok (ids, Provider.diffrhythm,
        [.generate Provider.aisonggenerator, .generate Provider.diffrhythm])
    | .error _ => .error ()

/-- Path 3 of `decideSongsStrategy`: generate new songs and persist the
returned ids; `pre` is the call log accumulated before falling
through. -/
def freshGeneration (gen : Provider → Except Unit (List SongId))
    (pre : List DecideCall) : Except Unit (SongsDecision × List DecideCall) :=
  match generateNewSongs gen with
  | .ok (ids, src, cls) =>
    .ok ({ needsPolling := true, songs := none, song_ids := ids, source := src },
      pre ++ cls ++ [.save "song_ids"])
  | .error _ => .error ()

/-- The `hasCompleteSongs` guard of `decideSongsStrategy`: exactly two
prior songs and ids, every song complete (`status >= 4`) with audio. -/
def hasCompleteSongs (rs : Option WorkflowSteps) : Bool :=
  match rs with
  | none => false
  | some r =>
    (match r.songs with | some l => l.length == 2 | none => false) &&
    (match r.song_ids with | some l => l.length == 2 | none => false) &&
    (r.songs.getD []).all (fun s => decide (4 ≤ s.status) && s.audio != "")

/-- The `hasPendingSongIds` guard of `decideSongsStrategy`: not
complete, but two prior ids and songs, none already failed. -/
def hasPendingSongIds (rs : Option WorkflowSteps) : Bool :=
  !hasCompleteSongs rs &&
  (match rs with
   | none => false
   | some r =>
     (match r.song_ids with | some l => l.length == 2 | none => false) &&
     (match r.songs with | some l => l.length == 2 | none => false) &&
     (r.songs.getD []).all (fun s => decide (0 ≤ s.status)))

/-- `decideSongsStrategy` of `songs.ts` over the collaborator oracles:
`extract` for the Song Matcher, `getQ` for the single quick-check
`getSongs` call (`.error` = throw), `gen` for `generateSongs`.  Returns
the decision together with the log of collaborator calls and durable
writes, or `.error` when fresh generation fails on both providers. -/
def decideSongsStrategy (extract : Extractor)
    (getQ : Except Unit (List Song))
    (gen : Provider → Except Unit (List SongId))
    (rs : Option WorkflowSteps) : Except Unit (SongsDecision × List DecideCall) :=
  if hasCompleteSongs rs then
    match rs with
    | some r =>
      let songs0 := r.songs.getD []
      let ids := r.song_ids.getD []
      let songs := validateOrder extract r songs0
      .ok ({ needsPolling := false, songs := some songs, song_ids := ids,
             source := Provider.aisonggenerator },
        [.save "song_ids", .save "songs"])
    | none => freshGeneration gen []
  else if hasPendingSongIds rs then
    match rs with
    | some r =>
      let ids := r.song_ids.getD []
      let quickCheck :=
        match getQ with
        | .ok currentSongs =>
          let allComplete := currentSongs.all
            (fun s => decide (4 ≤ s.status) && s.audio != "")
          let anyError := currentSongs.any (fun s => decide (s.status < 0))
          if anyError then (false, currentSongs)
          else if allComplete then (true, currentSongs)
          else (false, currentSongs)
        | .error _ => (false, ([] : List Song))
      if quickCheck.1 then
        let songs := validateOrder extract r quickCheck.2
        .ok ({ needsPolling := false, songs := some songs, song_ids := ids,
               source := Provider.aisonggenerator },
          [.statusCheck 0, .save "song_ids", .save "songs"])
      else
        freshGeneration gen [.statusCheck 0]
    | none => freshGeneration gen []
  else
    freshGeneration gen []

/-- Whether a logged call is the quick-check status call. -/
def isStatusCheckCall : DecideCall → Bool
  | .statusCheck _ => true
  | _ => false

/-- Claim C5: when the prior state has exactly two songs and two song
ids with every song complete (`status >= 4`) and audio present,
`decideSongsStrategy` returns `needsPolling = false` with those songs
(order corrected through `validateOrder`, i.e. the Song Matcher, when
exactly two frozen original fingerprints are present) and its call log
contains no song-generation call and no status check. -/
theorem decideSongs_reuse_complete (extract : Extractor)
    (getQ : Except Unit (List Song))
    (gen : Provider → Except Unit (List SongId))
    (r : WorkflowSteps) (songs0 : List Song) (ids : List SongId)
    (hsongs : r.songs = some songs0) (hlen : songs0.length = 2)
    (hids : r.song_ids = some ids) (hidlen : ids.length = 2)
    (hall : songs0.all (fun s => decide (4 ≤ s.status) && s.audio != "") = true) :
    decideSongsStrategy extract getQ gen (some r) =
      .ok ({ needsPolling := false, songs := some (validateOrder extract r songs0),
             song_ids := ids, source := Provider.aisonggenerator },
        [.save "song_ids", .save "songs"]) ∧
    (∀ p : Provider, DecideCall.generate p ∉
      ([DecideCall.save "song_ids", DecideCall.save "songs"] : List DecideCall)) ∧
    DecideCall.statusCheck 0 ∉
      ([DecideCall.save "song_ids", DecideCall.save "songs"] : List DecideCall) := by
  have hc : hasCompleteSongs (some r) = true := by
    simp [hasCompleteSongs, hsongs, hids, hlen, hidlen, hall]
  refine ⟨?_, ?_, ?_⟩
  · simp [decideSongsStrategy, hc, hsongs, hids]
  · intro p
    cases p <;> decide
  · decide

/-- Claim C6: on the quick-recheck path (two prior song ids and two
prior songs, all `status >= 0` but not all complete), a throwing status
check is not propagated: `decideSongsStrategy` falls through to fresh
generation, after having issued exactly one status check, configured
with zero retries. -/
theorem decideSongs_quick_recheck_fallback (extract : Extractor)
    (gen : Provider → Except Unit (List SongId))
    (r : WorkflowSteps) (songs0 : List Song) (ids : List SongId)
    (hsongs : r.songs = some songs0) (hlen : songs0.length = 2)
    (hids : r.song_ids = some ids) (hidlen : ids.length = 2)
    (hpend : songs0.all (fun s => decide (0 ≤ s.status)) = true)
    (hnotc : songs0.all (fun s => decide (4 ≤ s.status) && s.audio != "") = false) :
    decideSongsStrategy extract (.error ()) gen (some r) =
      freshGeneration gen [.statusCheck 0] ∧
    (∀ (d : SongsDecision) (cls : List DecideCall),
      freshGeneration gen [.statusCheck 0] = .ok (d, cls) →
      cls.filter isStatusCheckCall = [.statusCheck 0] ∧
      d.needsPolling = true ∧ d.songs = none) := by
  have hc : hasCompleteSongs (some r) = false := by
    simp [hasCompleteSongs, hsongs, hids, hnotc]
  have hp : hasPendingSongIds (some r) = true := by
    simp [hasPendingSongIds, hc, hsongs, hids, hlen, hidlen, hpend]
  refine ⟨?_, ?_⟩
  · simp [decideSongsStrategy, hc, hp, hids]
  · intro d cls h
    unfold freshGeneration generateNewSongs at h
    cases hga : gen Provider.aisonggenerator with
    | ok gids =>
      rw [hga] at h
      cases h
      exact ⟨by simp [isStatusCheckCall], rfl, rfl⟩
    | error e =>
      rw [hga] at h
      cases hgd : gen Provider.diffrhythm with
      | ok gids =>
        rw [hgd] at h
        cases h
        exact ⟨by simp [isStatusCheckCall], rfl, rfl⟩
      | error e2 =>
        rw [hgd] at h
        cases h

/-- Two complete prior songs. -/
def completeSongsW : List Song :=
  [{ music_id := "s1", status := 4, audio := "a1" },
   { music_id := "s2", status := 5, audio := "a2" }]

/-- Prior step state with two complete songs and two ids. -/
def rsComplete : WorkflowSteps :=
  { payload := none, songs := some completeSongsW,
    song_ids := some ["i1", "i2"], original_fingerprints := none }

/-- Generation oracle that fails on both providers (must not be
reached). -/
def genAbort : Provider → Except Unit (List SongId) := fun _ => .error ()

/-- Witness for `decideSongs_reuse_complete` at a concrete complete
prior state (generation oracle would fail if it were consulted). -/
theorem decideSongs_reuse_complete_witness :
    decideSongsStrategy exNever (.error ()) genAbort (some rsComplete) =
      .ok ({ needsPolling := false,
             songs := some (validateOrder exNever rsComplete completeSongsW),
             song_ids := ["i1", "i2"], source := Provider.aisonggenerator },
        [.save "song_ids", .save "songs"]) :=
  (decideSongs_reuse_complete exNever (.error ()) genAbort rsComplete
    completeSongsW ["i1", "i2"] rfl (by decide) rfl (by decide) (by decide)).1

/-- Two prior songs still pending (statuses 1 and 2). -/
def pendingSongsW : List Song :=
  [{ music_id := "s1", status := 1, audio := "" },
   { music_id := "s2", status := 2, audio := "a2" }]

/-- Prior step state with two pending songs and two ids. -/
def rsPending : WorkflowSteps :=
  { payload := none, songs := some pendingSongsW,
    song_ids := some ["i1", "i2"], original_fingerprints := none }

/-- Generation oracle that succeeds on both providers. -/
def genOkW : Provider → Except Unit (List SongId) := fun _ => .ok ["g1", "g2"]

/-- Witness for `decideSongs_quick_recheck_fallback` at a concrete
pending prior state whose quick status check throws. -/
theorem decideSongs_quick_recheck_fallback_witness :
    decideSongsStrategy exNever (.error ()) genOkW (some rsPending) =
      freshGeneration genOkW [.statusCheck 0] :=
  (decideSongs_quick_recheck_fallback exNever genOkW rsPending
    pendingSongsW ["i1", "i2"] rfl (by decide) rfl (by decide) (by decide)
    (by decide)).1
